import Mathlib

/-!
Verification development for the WeightCha backend.

The definitions below are a shallow embedding of the JavaScript sources:

* `backend-api/src/utils/humanPatternAnalyzer.js`   (namespace `UtilsAnalyzer`)
* `backend-api/src/services/humanPatternAnalyzer.js` (namespace `ServicesAnalyzer`)
* `backend-api/src/services/verificationService.js`  (namespace `Lifecycle`)
* `backend-api/src/routes/apiKeys.js` request schemas and handlers
* `backend-api/src/middleware/validation.js`

Numbers are modelled as exact rationals.  The utils analyzer divides without
guarding zero denominators, so for it we model the IEEE-754 special values a
JavaScript division can produce with the type `JSNum` (finite rational, NaN,
plus and minus infinity) and the IEEE comparison semantics (every comparison
with NaN is false).  `Math.sqrt` is irrational in general, so it enters as an
explicit function parameter; every theorem below holds for all choices of that
parameter, hence in particular for real square root, and concrete witnesses
only ever evaluate it at 0 where its value is pinned by a hypothesis.
-/

namespace WeightCha

/-- JavaScript double values reachable in the analyzer pipeline: a finite
(exact rational) value, NaN, or a signed infinity. -/
inductive JSNum where
  | num (q : ℚ)
  | nan
  | posInf
  | negInf
deriving DecidableEq, Repr

namespace JSNum

/-- IEEE `<` as JavaScript evaluates it: any comparison with NaN is false. -/
def ltB : JSNum → JSNum → Bool
  | num a, num b => decide (a < b)
  | nan, _ => false
  | _, nan => false
  | negInf, negInf => false
  | negInf, _ => true
  | _, negInf => false
  | posInf, _ => false
  | num _, posInf => true

/-- IEEE `>` : mirrored `<`. -/
def gtB (a b : JSNum) : Bool := ltB b a

/-- IEEE `<=` : false whenever either side is NaN. -/
def leB : JSNum → JSNum → Bool
  | num a, num b => decide (a ≤ b)
  | nan, _ => false
  | _, nan => false
  | negInf, _ => true
  | _, negInf => false
  | posInf, posInf => true
  | num _, posInf => true
  | posInf, num _ => false

/-- IEEE `>=`. -/
def geB (a b : JSNum) : Bool := leB b a

end JSNum

/-- JavaScript division of two finite doubles: `0/0` is NaN and `x/0` for
`x ≠ 0` is a signed infinity, otherwise the exact quotient. -/
def jsDivQ (a b : ℚ) : JSNum :=
  if b = 0 then
    if a = 0 then JSNum.nan
    else if 0 < a then JSNum.posInf
    else JSNum.negInf
  else JSNum.num (a / b)

/-- JavaScript division where the operands may already be special values.
Only the combinations reachable in this code base (finite over finite or an
operand already NaN) are distinguished; an infinity over a finite value keeps
its sign and anything involving NaN is NaN. -/
def jsDivJ : JSNum → JSNum → JSNum
  | JSNum.num a, JSNum.num b => jsDivQ a b
  | JSNum.nan, _ => JSNum.nan
  | _, JSNum.nan => JSNum.nan
  | JSNum.posInf, JSNum.posInf => JSNum.nan
  | JSNum.posInf, JSNum.negInf => JSNum.nan
  | JSNum.negInf, JSNum.posInf => JSNum.nan
  | JSNum.negInf, JSNum.negInf => JSNum.nan
  | JSNum.posInf, JSNum.num b => if 0 ≤ b then JSNum.posInf else JSNum.negInf
  | JSNum.negInf, JSNum.num b => if 0 ≤ b then JSNum.negInf else JSNum.posInf
  | JSNum.num _, JSNum.posInf => JSNum.num 0  -- finite / ∞ underflows to (signed) zero
  | JSNum.num _, JSNum.negInf => JSNum.num 0

/-- Lifting of `Math.sqrt` to `JSNum`: the behaviour on finite arguments is
the abstract parameter `sqrtQ`; `Math.sqrt(NaN)` is NaN, `Math.sqrt(∞)` is
`∞` and `Math.sqrt(-∞)` is NaN. -/
def jsSqrt (sqrtQ : ℚ → JSNum) : JSNum → JSNum
  | JSNum.num q => sqrtQ q
  | JSNum.nan => JSNum.nan
  | JSNum.posInf => JSNum.posInf
  | JSNum.negInf => JSNum.nan

namespace UtilsAnalyzer

/-- Record returned by `calculateStatistics` in
`backend-api/src/utils/humanPatternAnalyzer.js` (lines 204-220).  Every field
can be a special value because the source guards none of its divisions. -/
structure JsStats where
  mean : JSNum
  variance : JSNum
  standardDeviation : JSNum
  statMin : JSNum
  statMax : JSNum
  range : JSNum
  coefficientOfVariation : JSNum
deriving DecidableEq, Repr

/-- `calculateStatistics(pressures)` from the utils analyzer.  On an empty
list JavaScript produces `0/0 = NaN` for the mean and variance,
`Math.min() = +∞` and `Math.max() = -∞`; on a non-empty list every division
has a positive denominator except `stdDev / mean`, which is modelled with
`jsDivJ` exactly as IEEE evaluates it. -/
def calculateStatistics (sqrtQ : ℚ → JSNum) (pressures : List ℚ) : JsStats :=
  if pressures.length = 0 then
    -- Empty input: sums are 0, the divisor is 0, so mean and variance are NaN.
    { mean := JSNum.nan
      variance := JSNum.nan
      standardDeviation := jsSqrt sqrtQ JSNum.nan
      statMin := JSNum.posInf
      statMax := JSNum.negInf
      range := JSNum.negInf  -- (-∞) - (+∞)
      coefficientOfVariation := jsDivJ (jsSqrt sqrtQ JSNum.nan) JSNum.nan }
  else
    let n : ℚ := pressures.length
    let mean : ℚ := pressures.sum / n
    let variance : ℚ := (pressures.map (fun p => (p - mean) ^ 2)).sum / n
    let stdDev : JSNum := jsSqrt sqrtQ (JSNum.num variance)
    let mn : ℚ := pressures.min?.getD 0   -- list is non-empty here
    let mx : ℚ := pressures.max?.getD 0
    { mean := JSNum.num mean
      variance := JSNum.num variance
      standardDeviation := stdDev
      statMin := JSNum.num mn
      statMax := JSNum.num mx
      range := JSNum.num (mx - mn)
      coefficientOfVariation := jsDivJ stdDev (JSNum.num mean) }

/-- `analyzeVariance(pressures)` (utils analyzer lines 222-241).  The branch
conditions are IEEE comparisons, so a NaN coefficient of variation falls
through every branch to the final `0.6`. -/
def analyzeVariance (sqrtQ : ℚ → JSNum) (pressures : List ℚ) : ℚ :=
  let cv := (calculateStatistics sqrtQ pressures).coefficientOfVariation
  if JSNum.ltB cv (JSNum.num 0.05) then 0.2
  else if JSNum.gtB cv (JSNum.num 0.5) then 0.3
  else if JSNum.geB cv (JSNum.num 0.1) && JSNum.leB cv (JSNum.num 0.3) then 0.9
  else 0.6

/-- `analyzeStability(pressures)` (utils analyzer lines 372-384), used for the
`sustained_pressure` challenge type. -/
def analyzeStability (sqrtQ : ℚ → JSNum) (pressures : List ℚ) : ℚ :=
  let cv := (calculateStatistics sqrtQ pressures).coefficientOfVariation
  if JSNum.ltB cv (JSNum.num 0.05) then 0.3
  else if JSNum.gtB cv (JSNum.num 0.3) then 0.4
  else 0.8

/-- `checkLinearity(values)` (utils analyzer lines 462-484): least-squares
regression of the values against their indices, returning R².  The JavaScript
sums are index-based `reduce` loops, modelled as sums over `Finset.range`.
The two case splits reproduce IEEE evaluation exactly: when the slope
denominator is 0 (only possible for fewer than two samples) the slope is NaN
and NaN propagates to the result; when `ssTot = 0` the final division is
`ssRes / 0`, which is NaN for `ssRes = 0` and `+∞` (giving `1 - ∞ = -∞`)
otherwise. -/
def checkLinearity (values : List ℚ) : JSNum :=
  let n : ℚ := values.length
  let xSum : ℚ := ∑ i in Finset.range values.length, (i : ℚ)
  let ySum : ℚ := ∑ i in Finset.range values.length, values.getD i 0
  let xySum : ℚ := ∑ i in Finset.range values.length, (i : ℚ) * values.getD i 0
  let x2Sum : ℚ := ∑ i in Finset.range values.length, (i : ℚ) * (i : ℚ)
  let den : ℚ := n * x2Sum - xSum * xSum
  if den = 0 then JSNum.nan
  else
    let slope : ℚ := (n * xySum - xSum * ySum) / den
    let intercept : ℚ := (ySum - slope * xSum) / n
    let yMean : ℚ := ySum / n
    let ssRes : ℚ :=
      ∑ i in Finset.range values.length, (values.getD i 0 - (slope * i + intercept)) ^ 2
    let ssTot : ℚ := ∑ i in Finset.range values.length, (values.getD i 0 - yMean) ^ 2
    if ssTot = 0 then
      if ssRes = 0 then JSNum.nan else JSNum.negInf
    else JSNum.num (1 - ssRes / ssTot)

/-- The `uniqueValues.size / pressures.length` ratio computed by
`analyzeNaturalness`: a JavaScript `Set` counts distinct values, modelled with
`List.dedup`; for the empty list the ratio is `0/0 = NaN`. -/
def uniqueRatio (pressures : List ℚ) : JSNum :=
  jsDivQ pressures.dedup.length pressures.length

/-- `analyzeNaturalness(pressures)` (utils analyzer lines 268-287): a
multiplicative score starting at 1.0, halved when too many values repeat,
multiplied by 0.4 when the trace is too linear, floored at 0.1. -/
def analyzeNaturalness (pressures : List ℚ) : ℚ :=
  let afterRepeat : ℚ :=
    if JSNum.ltB (uniqueRatio pressures) (JSNum.num 0.7) then 1 * 0.5 else 1
  let afterLinear : ℚ :=
    if JSNum.gtB (checkLinearity pressures) (JSNum.num 0.9) then afterRepeat * 0.4
    else afterRepeat
  max 0.1 afterLinear

end UtilsAnalyzer

/-- Character-list prefix test used to model `String.prototype.includes`. -/
def charsAtStart : List Char → List Char → Bool
  | [], _ => true
  | _ :: _, [] => false
  | a :: as, b :: bs => a = b && charsAtStart as bs

/-- Character-list substring test. -/
def charsContains (needle : List Char) : List Char → Bool
  | [] => needle.isEmpty
  | c :: t => charsAtStart needle (c :: t) || charsContains needle t

/-- `s.includes(sub)` from JavaScript. -/
def strIncludes (s sub : String) : Bool := charsContains sub.toList s.toList

namespace ServicesAnalyzer

/-- A pressure sample as accepted by `submitVerificationSchema`
(`backend-api/src/routes/apiKeys.js` lines 127-139): `timestamp` and
`pressure` required, `weight` and `position` optional.  The optional
`deltaTime`/`touchArea` fields are never read by the analyzer and are
omitted. -/
structure PressureSample where
  timestamp : ℚ
  pressure : ℚ
  weight : Option ℚ
  position : Option (ℚ × ℚ)
deriving DecidableEq, Repr

/-- A motion sample.  The source reads the `rotation` components into a local
`rotations` array that it never uses afterwards, so only `acceleration`
matters for the analysis. -/
structure MotionSample where
  timestamp : ℚ
  acceleration : Option (ℚ × ℚ × ℚ)
deriving DecidableEq, Repr

/-- Screen dimensions inside `deviceInfo`. -/
structure ScreenInfo where
  width : Option ℚ
  height : Option ℚ
deriving DecidableEq, Repr

/-- `deviceInfo` as used by the analyzer.  `browserSupport` is only echoed
into the characteristics metadata, never scored, and is omitted. -/
structure DeviceInfo where
  userAgent : Option String
  screen : Option ScreenInfo
  trackpadType : Option String
deriving DecidableEq, Repr

/-- The record `verificationService.submitVerification` hands to
`analyzePattern` (services/verificationService.js lines 35-42). -/
structure VerificationData where
  pressureData : List PressureSample
  motionData : List MotionSample
  deviceInfo : DeviceInfo
  detectionMethod : String
  challengeType : String
  challengeDifficulty : String
deriving DecidableEq, Repr

/-- JS `d.pressure || d.weight || 0`: `0` is falsy, so a zero pressure falls
back to the weight (or 0). -/
def sampleP (s : PressureSample) : ℚ :=
  if s.pressure ≠ 0 then s.pressure else s.weight.getD 0

/-- `calculateVariance(values)` (services analyzer lines 411-416), guarded
against the empty list. -/
def calculateVariance (values : List ℚ) : ℚ :=
  if values.length = 0 then 0
  else
    let mean := values.sum / (values.length : ℚ)
    ((values.map fun v => (v - mean) ^ 2).sum) / (values.length : ℚ)

/-- `calculateNaturalness(values)` (lines 418-437): the fraction of interior
points whose two adjacent changes are both below 0.3. -/
def calculateNaturalness (values : List ℚ) : ℚ :=
  if values.length < 3 then 0
  else
    let triples := values.zip (values.tail.zip values.tail.tail)
    let smooth := (triples.filter fun t =>
      decide (|t.2.1 - t.1| < 0.3) && decide (|t.2.2 - t.2.1| < 0.3)).length
    -- totalTransitions = length - 2 is positive in this branch
    (smooth : ℚ) / (triples.length : ℚ)

/-- `Math.max(...values)`; every call site passes a non-empty list. -/
def jsMax (values : List ℚ) : ℚ := values.max?.getD 0

/-- `hasGradualPressureIncrease(values)` (lines 439-453): at least two
leading samples below 30% of the peak.  (The source also binds `values[0]`
to a local `first` that it never uses.) -/
def hasGradualPressureIncrease (values : List ℚ) : Bool :=
  if values.length < 3 then false
  else
    let peak := jsMax values
    let gradualThreshold := peak * 0.3
    decide (2 ≤ (values.takeWhile fun v => decide (v < gradualThreshold)).length)

/-- `hasNaturalPressureRelease(values)` (lines 455-476): after the (first)
peak, no single step may drop by more than half the peak. -/
def hasNaturalPressureRelease (values : List ℚ) : Bool :=
  if values.length < 3 then false
  else
    let peak := jsMax values
    let peakIndex := values.indexOf peak
    if values.length - 2 ≤ peakIndex then true
    else
      let releaseValues := values.drop peakIndex
      (releaseValues.tail.zip releaseValues).all fun p =>
        decide (p.2 - p.1 ≤ peak * 0.5)

/-- `calculateSmoothness(values)` (lines 478-492): one minus the ratio of the
average absolute change to the maximum absolute change. -/
def calculateSmoothness (values : List ℚ) : ℚ :=
  if values.length < 2 then 0
  else
    let changes := (values.tail.zip values).map fun p => |p.1 - p.2|
    let totalChange := changes.sum
    let maxChange := changes.foldl max 0
    let avgChange := totalChange / ((values.length : ℚ) - 1)
    if 0 < maxChange then 1 - avgChange / maxChange else 1

/-- Consecutive timestamp differences. -/
def intervalsOf (timestamps : List ℚ) : List ℚ :=
  (timestamps.tail.zip timestamps).map fun p => p.1 - p.2

/-- `calculateRhythmicity(intervals)` (lines 494-502), guarded on a positive
mean. -/
def calculateRhythmicity (intervals : List ℚ) : ℚ :=
  if intervals.length < 3 then 0
  else
    let variance := calculateVariance intervals
    let mean := intervals.sum / (intervals.length : ℚ)
    if 0 < mean then max 0 (1 - variance / (mean * mean)) else 0

/-- `analyzePressurePattern(pressureData, deviceProfile)` (lines 120-177),
reduced to its score; the characteristics object is audit metadata that the
composite never reads. -/
def analyzePressurePattern (pressureData : List PressureSample) (mult : ℚ) : ℚ :=
  let pressures := pressureData.map sampleP
  if pressures.length = 0 then 0
  else
    let calibratedPressures := pressures.map fun p => p * mult
    let variance := calculateVariance calibratedPressures
    let naturalness := calculateNaturalness calibratedPressures
    let smoothness := calculateSmoothness calibratedPressures
    (if 0.01 ≤ variance ∧ variance ≤ 0.15 then 0.25 else 0)
    + (if 0.3 ≤ naturalness then 0.25 else 0)
    + (if hasGradualPressureIncrease calibratedPressures then 0.2 else 0)
    + (if hasNaturalPressureRelease calibratedPressures then 0.2 else 0)
    + (if 0.3 < smoothness ∧ smoothness < 0.9 then 0.1 else 0)

/-- `analyzeTimingPattern(pressureData)` (lines 182-227), reduced to its
score. -/
def analyzeTimingPattern (pressureData : List PressureSample) : ℚ :=
  let timestamps := pressureData.map (·.timestamp)
  if timestamps.length < 2 then 0
  else
    let intervals := intervalsOf timestamps
    let intervalVariance := calculateVariance intervals
    let rhythmicity := calculateRhythmicity intervals
    let totalDuration := timestamps.getLastD 0 - timestamps.headD 0
    (if 0.05 ≤ intervalVariance ∧ intervalVariance ≤ 0.25 then 0.4 else 0)
    + (if 500 < totalDuration ∧ totalDuration < 15000 then 0.3 else 0)
    + (if 0.3 ≤ rhythmicity ∧ rhythmicity ≤ 0.8 then 0.3 else 0)

/-- JS `d.acceleration?.x || 0` per component. -/
def accelOf (m : MotionSample) : ℚ × ℚ × ℚ := m.acceleration.getD (0, 0, 0)

/-- The acceleration magnitudes `Math.sqrt(x² + y² + z²)`; `sqrtQ` stands for
`Math.sqrt` on finite arguments. -/
def motionMagnitudes (sqrtQ : ℚ → ℚ) (motionData : List MotionSample) : List ℚ :=
  motionData.map fun m =>
    let a := accelOf m
    sqrtQ (a.1 * a.1 + a.2.1 * a.2.1 + a.2.2 * a.2.2)

/-- `analyzeMotionPattern(motionData)` (lines 232-283): neutral 0.5 when no
motion data is present. -/
def analyzeMotionPattern (sqrtQ : ℚ → ℚ) (motionData : List MotionSample) : ℚ :=
  if motionData.length = 0 then 0.5
  else
    let magnitudes := motionMagnitudes sqrtQ motionData
    let avgMagnitude := magnitudes.sum / (magnitudes.length : ℚ)
    let motionVariance := calculateVariance magnitudes
    0.5
    + (if 0.01 < avgMagnitude ∧ avgMagnitude < 0.5 then 0.2 else 0)
    + (if 0.001 < motionVariance ∧ motionVariance < 0.1 then 0.2 else 0)
    - (if motionVariance < 0.0001 then 0.3 else 0)

/-- `analyzeDeviceCharacteristics(deviceInfo)` (lines 288-319). -/
def analyzeDeviceCharacteristics (d : DeviceInfo) : ℚ :=
  let ua := d.userAgent.getD ""
  let trackpadType := d.trackpadType.getD "unknown"
  0.5
  + (if trackpadType ≠ "unknown" ∧ trackpadType ≠ "generic" then 0.2 else 0)
  + (if strIncludes ua "Macintosh" || strIncludes ua "Windows" ||
        strIncludes ua "iPad" then 0.2 else 0)
  + (match d.screen with
     | some sc =>
       match sc.width, sc.height with
       | some w, some h => if 800 < w ∧ 600 < h ∧ w < 8000 ∧ h < 8000 then 0.1 else 0
       | _, _ => 0
     | none => 0)

/-- `normalizeArray(arr)` (lines 565-574). -/
def normalizeArray (arr : List ℚ) : List ℚ :=
  if arr.length = 0 then []
  else
    let mn := arr.min?.getD 0
    let mx := arr.max?.getD 0
    let range := mx - mn
    if range = 0 then arr.map fun _ => 0
    else arr.map fun v => (v - mn) / range

/-- The `for (i = 0; i < n; i += step)` sampling loop of the signature
builders. -/
def strideSample (l : List ℚ) (step : ℕ) : List ℚ :=
  (List.range l.length).filterMap fun i =>
    if i % step = 0 then some (l.getD i 0) else none

/-- `Math.round(q * 100) / 100`; `Math.round` rounds half towards `+∞`,
which on the non-negative values that occur here coincides with `round`. -/
def roundTo2 (q : ℚ) : ℚ := ((round (q * 100) : ℤ) : ℚ) / 100

/-- `createPressureSignature(pressureData)` (lines 504-518). -/
def createPressureSignature (pressureData : List PressureSample) : List ℚ :=
  let normalized := normalizeArray (pressureData.map sampleP)
  let step := max 1 (normalized.length / 10)
  (strideSample normalized step).map roundTo2

/-- `createMotionSignature(motionData)` (lines 520-538). -/
def createMotionSignature (sqrtQ : ℚ → ℚ) (motionData : List MotionSample) : List ℚ :=
  if motionData.length = 0 then []
  else
    let normalized := normalizeArray (motionMagnitudes sqrtQ motionData)
    let step := max 1 (normalized.length / 5)
    (strideSample normalized step).map roundTo2

/-- `calculateUniqueness(pressureSignature, motionSignature)` (lines
540-549). -/
def calculateUniqueness (pSig mSig : List ℚ) : ℚ :=
  let combined := pSig ++ mSig
  if combined.length = 0 then 0
  else
    let variance := calculateVariance combined
    let range := combined.max?.getD 0 - combined.min?.getD 0
    min 1 (variance * range)

/-- `calculateComplexity(pressureData, motionData)` (lines 551-563). -/
def calculateComplexity (sqrtQ : ℚ → ℚ) (pressureData : List PressureSample)
    (motionData : List MotionSample) : ℚ :=
  let pressureComplexity :=
    if 0 < pressureData.length then calculateVariance (pressureData.map sampleP) else 0
  let motionComplexity :=
    if 0 < motionData.length then calculateVariance (motionMagnitudes sqrtQ motionData) else 0
  (pressureComplexity + motionComplexity) / 2

/-- `analyzeBiometricSignature(pressureData, motionData)` (lines 324-349),
reduced to its score. -/
def analyzeBiometricSignature (sqrtQ : ℚ → ℚ) (pressureData : List PressureSample)
    (motionData : List MotionSample) : ℚ :=
  let pressureSignature := createPressureSignature pressureData
  let motionSignature := createMotionSignature sqrtQ motionData
  let uniqueness := calculateUniqueness pressureSignature motionSignature
  let complexity := calculateComplexity sqrtQ pressureData motionData
  0.5
  + (if 0.3 < complexity then 0.3 else 0)
  + (if 0.2 < uniqueness ∧ uniqueness < 0.8 then 0.2 else 0)

/-- The device-profile calibration table (constructor lines 30-39). -/
def pressureMultiplierOf : String → ℚ
  | "MacBook Pro 16\" 2021" => 1.2
  | "MacBook Pro 14\" 2021" => 1.15
  | "MacBook Air M1" => 1.0
  | "MacBook Air M2" => 1.05
  | "Surface Pro 8" => 0.9
  | "Surface Pro 9" => 0.95
  | "iPad Pro 12.9\"" => 0.8
  | _ => 1.0   -- 'generic'

/-- Screen-dimension equality test `screen.width === w && screen.height === h`
(false when the screen object or a component is absent). -/
def screenEq (d : DeviceInfo) (w h : ℚ) : Bool :=
  match d.screen with
  | some sc => decide (sc.width = some w) && decide (sc.height = some h)
  | none => false

/-- `getDeviceProfile(deviceInfo)` (lines 379-408), reduced to the profile
name (the profile record is the name plus the multiplier table above). -/
def getDeviceProfileName (d : DeviceInfo) : String :=
  let ua := d.userAgent.getD ""
  if strIncludes ua "Macintosh" then
    if screenEq d 3456 2234 then "MacBook Pro 16\" 2021"
    else if screenEq d 3024 1964 then "MacBook Pro 14\" 2021"
    else if screenEq d 2560 1600 then "MacBook Air M1"
    else if screenEq d 2880 1864 then "MacBook Air M2"
    else "generic"
  else if strIncludes ua "Windows" then
    if strIncludes ua "Surface" then "Surface Pro 8" else "generic"
  else if strIncludes ua "iPad" then
    match d.screen with
    | some sc =>
      match sc.width with
      | some w => if 2048 ≤ w then "iPad Pro 12.9\"" else "generic"
      | none => "generic"
    | none => "generic"
  else "generic"

/-- The browser-pattern confidence boosts (constructor lines 22-27); an
unknown detection method falls back to the `pointerEvents` pattern. -/
def browserConfidenceBoost : String → ℚ
  | "webHID" => 0.1
  | "forceTouch" => 0.08
  | "pointerEvents" => 0.05
  | "motionSensors" => 0.02
  | _ => 0.05

/-- `calculateCompositeConfidence(analyses)` (lines 354-374): fixed weights
pressure 0.35, timing 0.25, motion 0.15, device 0.10, biometric 0.15.  All
five analyses always carry a numeric score, so the loop accumulates the full
weight total of 1. -/
def calculateCompositeConfidence (pressure timing motion device biometric : ℚ) : ℚ :=
  let weighted : List (ℚ × ℚ) :=
    [(pressure, 0.35), (timing, 0.25), (motion, 0.15), (device, 0.10), (biometric, 0.15)]
  let weightedSum := (weighted.map fun p => p.1 * p.2).sum
  let totalWeight := (weighted.map fun p : ℚ × ℚ => p.2).sum
  if 0 < totalWeight then weightedSum / totalWeight else 0

/-- Result of `analyzePattern`.  The JavaScript result also carries a nested
`analysis` breakdown and, on the short-input path, a `reason` string; those
are audit metadata not read by any caller modelled here.  `timestamp` is the
`new Date().toISOString()` stamp of the success path. -/
structure AnalyzeResult where
  isHuman : Bool
  confidence : ℚ
  detectionMethod : String
  deviceProfileName : String
  timestamp : ℚ
deriving DecidableEq, Repr

/-- `analyzePattern(verificationData)` (services analyzer lines 45-115).
`sqrtQ` abstracts `Math.sqrt` and `now` the wall clock. -/
def analyzePattern (sqrtQ : ℚ → ℚ) (now : ℚ) (v : VerificationData) : AnalyzeResult :=
  if v.pressureData.length < 5 then
    { isHuman := false, confidence := 0, detectionMethod := v.detectionMethod,
      deviceProfileName := "", timestamp := now }
  else
    let profileName := getDeviceProfileName v.deviceInfo
    let boost := browserConfidenceBoost v.detectionMethod
    let pressureScore := analyzePressurePattern v.pressureData (pressureMultiplierOf profileName)
    let timingScore := analyzeTimingPattern v.pressureData
    let motionScore := analyzeMotionPattern sqrtQ v.motionData
    let deviceScore := analyzeDeviceCharacteristics v.deviceInfo
    let biometricScore := analyzeBiometricSignature sqrtQ v.pressureData v.motionData
    let baseConfidence :=
      calculateCompositeConfidence pressureScore timingScore motionScore deviceScore biometricScore
    let adjustedConfidence := min 1 (baseConfidence + boost)
    { isHuman := decide (0.65 ≤ adjustedConfidence)
      confidence := adjustedConfidence
      detectionMethod := v.detectionMethod
      deviceProfileName := profileName
      timestamp := now }

end ServicesAnalyzer

namespace Lifecycle

open ServicesAnalyzer

/-- Challenge lifecycle states (challenges table / challengeService). -/
inductive ChallengeStatus where
  | pending
  | processing
  | completed
  | failed
  | cancelled
deriving DecidableEq, Repr

/-- A challenge record as returned by `challengeService.getChallenge`.
Identifiers are modelled as naturals (uuid strings in the source) and
timestamps as rationals (millisecond epochs). -/
structure Challenge where
  id : ℕ
  type : String
  difficulty : String
  status : ChallengeStatus
  expiresAt : ℚ
deriving DecidableEq, Repr

/-- The claims `generateVerificationToken` signs (verificationService lines
188-195). -/
structure TokenPayload where
  verificationId : ℕ
  challengeId : ℕ
  isHuman : Bool
  confidence : ℚ
  processedAt : ℚ
deriving DecidableEq, Repr

/-- A signed JWT.  The signature of an ideal MAC is modelled as the signed
content paired with the secret: `jwt.verify` succeeds exactly when the
signature was produced over this payload and expiry with the same secret. -/
structure Token where
  payload : TokenPayload
  exp : ℚ
  sig : ℕ × TokenPayload × ℚ
deriving DecidableEq, Repr

/-- `expiresIn: '24h'` used when signing verification tokens. -/
def jwtExpiryMs : ℚ := 24 * 60 * 60 * 1000

/-- `jwt.sign(payload, secret, { expiresIn: '24h' })`. -/
def jwtSign (secret : ℕ) (now : ℚ) (p : TokenPayload) : Token :=
  { payload := p, exp := now + jwtExpiryMs, sig := (secret, p, now + jwtExpiryMs) }

/-- `jwt.verify(token, secret)`: checks the signature and the token's own
expiry, returning the decoded claims on success and failing (the JS throw
caught by `validateToken`) otherwise. -/
def jwtVerify (secret : ℕ) (now : ℚ) (t : Token) : Option TokenPayload :=
  if t.sig = (secret, t.payload, t.exp) ∧ now < t.exp then some t.payload else none

/-- `VERIFICATION_EXPIRY_MINUTES` defaults to 30 minutes (verificationService
line 58). -/
def verificationExpiryMs : ℚ := 30 * 60 * 1000

/-- A stored verification row (the fields of the `verifications` insert that
any modelled reader consumes). -/
structure Verification where
  id : ℕ
  challengeId : ℕ
  isHuman : Bool
  confidence : ℚ
  submittedAt : ℚ
  processedAt : ℚ
  expiresAt : ℚ
  token : Token
deriving DecidableEq, Repr

/-- Server-side persistent state: the challenge and verification stores, the
JWT secret, the wall clock, and a fresh-id counter standing in for `uuidv4`. -/
structure ServerState where
  secret : ℕ
  challenges : List Challenge
  verifications : List Verification
  now : ℚ
  nextId : ℕ
deriving DecidableEq, Repr

/-- `challengeService.getChallenge` (cache and database collapse to one
store). -/
def getChallenge (s : ServerState) (cid : ℕ) : Option Challenge :=
  s.challenges.find? fun ch => ch.id = cid

/-- `challengeService.updateChallengeStatus`. -/
def updateChallengeStatus (chs : List Challenge) (cid : ℕ) (st : ChallengeStatus) :
    List Challenge :=
  chs.map fun ch => if ch.id = cid then { ch with status := st } else ch

/-- `verificationService.getVerification` (cache and database collapse to one
store; the freshest row is found first). -/
def getVerification (s : ServerState) (vid : ℕ) : Option Verification :=
  s.verifications.find? fun v => v.id = vid

/-- The three typed rejections thrown by `submitVerification` (lines 18-28):
`Challenge not found`, `Challenge is not in pending state`, `Challenge has
expired`. -/
inductive SubmitError where
  | notFound
  | invalidState
  | expired
deriving DecidableEq, Repr

/-- The request body of `POST /verification/submit` after schema
validation. -/
structure SubmitRequest where
  challengeId : ℕ
  pressureData : List PressureSample
  motionData : List MotionSample
  deviceInfo : DeviceInfo
  detectionMethod : String
deriving DecidableEq, Repr

/-- `verificationService.submitVerification` (lines 13-114).  All three
rejections happen before any state is written.  The analysis itself is a
total function in this model, so the success path always reaches the final
`completed` status update; the `catch` branch that marks the challenge
`failed` is unreachable here. -/
def submitVerification (sqrtQ : ℚ → ℚ) (s : ServerState) (r : SubmitRequest) :
    Except SubmitError (ServerState × Verification) :=
  match getChallenge s r.challengeId with
  | none => Except.error SubmitError.notFound
  | some challenge =>
    if challenge.status ≠ ChallengeStatus.pending then Except.error SubmitError.invalidState
    else if challenge.expiresAt < s.now then Except.error SubmitError.expired
    else
      -- status := processing, analyse, insert verification, status := completed
      let verificationData : VerificationData :=
        { pressureData := r.pressureData
          motionData := r.motionData
          deviceInfo := r.deviceInfo
          detectionMethod := r.detectionMethod
          challengeType := challenge.type
          challengeDifficulty := challenge.difficulty }
      let analysisResult := analyzePattern sqrtQ s.now verificationData
      let payload : TokenPayload :=
        { verificationId := s.nextId
          challengeId := r.challengeId
          isHuman := analysisResult.isHuman
          confidence := analysisResult.confidence
          processedAt := s.now }
      let verification : Verification :=
        { id := s.nextId
          challengeId := r.challengeId
          isHuman := analysisResult.isHuman
          confidence := analysisResult.confidence
          submittedAt := s.now
          processedAt := s.now
          expiresAt := s.now + verificationExpiryMs
          token := jwtSign s.secret s.now payload }
      Except.ok
        ({ s with
            challenges := updateChallengeStatus s.challenges r.challengeId ChallengeStatus.completed
            verifications := verification :: s.verifications
            nextId := s.nextId + 1 },
          verification)

/-- The result object of `verificationService.validateToken` (lines 158-186):
`valid` plus, on success only, the stored verdict.  Note the success object
carries `verifiedAt` (the stored `processedAt`) and no `verificationId`. -/
structure ValidateResult where
  valid : Bool
  isHuman : Option Bool
  confidence : Option ℚ
  verifiedAt : Option ℚ
  expiresAt : Option ℚ
deriving DecidableEq, Repr

/-- The literal `{ valid: false }` object returned by every failing branch of
`validateToken`. -/
def failValidateResult : ValidateResult :=
  { valid := false, isHuman := none, confidence := none, verifiedAt := none, expiresAt := none }

/-- `verificationService.validateToken(token)` (lines 158-186): verify the
JWT, load the verification, check its expiry; every failure yields the same
`{ valid: false }`. -/
def validateToken (s : ServerState) (t : Token) : ValidateResult :=
  match jwtVerify s.secret s.now t with
  | none => failValidateResult
  | some decoded =>
    match getVerification s decoded.verificationId with
    | none => failValidateResult
    | some verification =>
      if verification.expiresAt < s.now then failValidateResult
      else
        { valid := true
          isHuman := some verification.isHuman
          confidence := some verification.confidence
          verifiedAt := some verification.processedAt
          expiresAt := some verification.expiresAt }

/-- The response body built by the `POST /api/v1/verification/validate-token`
handler at routes/apiKeys.js lines 266-288. -/
structure TokenRouteResponse where
  valid : Bool
  isHuman : Option Bool
  confidence : Option ℚ
  expiresAt : Option ℚ
  verificationId : Option ℕ
deriving DecidableEq, Repr

/-- The handler serializes `result.verificationId`, but the service result
has no such field, so that property is `undefined` (`none`) in every
response. -/
def validateTokenRoute (s : ServerState) (t : Token) : TokenRouteResponse :=
  let result := validateToken s t
  { valid := result.valid
    isHuman := result.isHuman
    confidence := result.confidence
    expiresAt := result.expiresAt
    verificationId := none }

/-- Joi constraints on one pressure sample (`submitVerificationSchema`,
routes/apiKeys.js lines 127-139): `pressure` in [0,1], optional non-negative
`weight`. -/
def pressureSampleValid (p : PressureSample) : Bool :=
  decide (0 ≤ p.pressure) && decide (p.pressure ≤ 1) &&
    (match p.weight with
     | some w => decide (0 ≤ w)
     | none => true)

/-- The `submitVerificationSchema` body constraints relevant to sample
counts: `pressureData` between 5 and 10000 items, `motionData` at most 5000
items, every sample well-formed. -/
def submitBodyValid (r : SubmitRequest) : Bool :=
  decide (5 ≤ r.pressureData.length) && decide (r.pressureData.length ≤ 10000) &&
    r.pressureData.all pressureSampleValid &&
    decide (r.motionData.length ≤ 5000)

/-- Outcome of `POST /verification/submit` as seen by the client: a 400
`Validation failed` from the `validateRequest` middleware, a service
rejection mapped by the error handler, or a 201 with the verification
verdict. -/
inductive SubmitRouteOutcome where
  | validationError
  | serviceError (e : SubmitError)
  | created (verificationId : ℕ) (isHuman : Bool) (confidence : ℚ) (token : Token)
deriving DecidableEq, Repr

/-- The composed route: `validateRequest(submitVerificationSchema)` runs
before the handler (middleware/validation.js lines 1-27), so an invalid body
is rejected with no service call and no state change. -/
def submitRoute (sqrtQ : ℚ → ℚ) (s : ServerState) (r : SubmitRequest) :
    SubmitRouteOutcome × ServerState :=
  if ¬ submitBodyValid r then (SubmitRouteOutcome.validationError, s)
  else
    match submitVerification sqrtQ s r with
    | Except.error e => (SubmitRouteOutcome.serviceError e, s)
    | Except.ok (s', v) =>
      (SubmitRouteOutcome.created v.id v.isHuman v.confidence v.token, s')


/-!
Concrete lifecycle instances used by witnesses and counterexamples below.
-/

def emptyDevice : DeviceInfo := { userAgent := none, screen := none, trackpadType := none }
def sampleAt (t p : ℚ) : PressureSample :=
  { timestamp := t, pressure := p, weight := none, position := none }
def samples5 : List PressureSample :=
  [sampleAt 0 0.4, sampleAt 100 0.41, sampleAt 250 0.39, sampleAt 450 0.42, sampleAt 700 0.4]
def vd0 : VerificationData :=
  { pressureData := samples5, motionData := [], deviceInfo := emptyDevice,
    detectionMethod := "pointerEvents", challengeType := "pressure_pattern",
    challengeDifficulty := "medium" }

set_option maxHeartbeats 1000000
set_option maxRecDepth 16000

def pendingChallenge : Challenge :=
  { id := 1, type := "pressure_pattern", difficulty := "medium",
    status := ChallengeStatus.pending, expiresAt := 1000000 }

def state0 : ServerState :=
  { secret := 7, challenges := [pendingChallenge], verifications := [], now := 500000, nextId := 0 }

def req0 : SubmitRequest :=
  { challengeId := 1, pressureData := samples5, motionData := [],
    deviceInfo := emptyDevice, detectionMethod := "pointerEvents" }

def payload1 : TokenPayload :=
  { verificationId := 0, challengeId := 1, isHuman := false, confidence := 207/400,
    processedAt := 500000 }

def verif1 : Verification :=
  { id := 0, challengeId := 1, isHuman := false, confidence := 207/400,
    submittedAt := 500000, processedAt := 500000, expiresAt := 2300000,
    token := { payload := payload1, exp := 86900000, sig := (7, payload1, 86900000) } }

def state1 : ServerState :=
  { secret := 7,
    challenges := [{ pendingChallenge with status := ChallengeStatus.completed }],
    verifications := [verif1], now := 500000, nextId := 1 }

def stateAtExpiry : ServerState := { state0 with now := 1000000 }

def shortReq : SubmitRequest := { req0 with pressureData := [sampleAt 0 0.4, sampleAt 100 0.5] }

def challengeVerifications (s : ServerState) (cid : ℕ) : ℕ :=
  (s.verifications.filter fun v => v.challengeId = cid).length

def AtMostOne (s : ServerState) (cid : ℕ) : Prop :=
  challengeVerifications s cid ≤ 1 ∧
  ∀ ch, getChallenge s cid = some ch → ch.status = ChallengeStatus.pending →
    challengeVerifications s cid = 0

def expiredPayload : TokenPayload :=
  { verificationId := 3, challengeId := 1, isHuman := true, confidence := 0.9,
    processedAt := 0 }

def expiredToken : Token := jwtSign 7 0 expiredPayload

def expiredVerification : Verification :=
  { id := 3, challengeId := 1, isHuman := true, confidence := 0.9,
    submittedAt := 0, processedAt := 0, expiresAt := 500, token := expiredToken }

def stateExpired : ServerState :=
  { secret := 7, challenges := [], verifications := [expiredVerification],
    now := 1000000, nextId := 4 }

end Lifecycle

/-!
Concrete instances used by witnesses and counterexamples.
-/

/-- A stand-in for `Math.sqrt` on finite arguments in concrete evaluations of
the utils analyzer; the witnesses below only ever evaluate it at 0, where it
agrees with the real square root. -/
def sqrtAtZero : ℚ → JSNum := fun _ => JSNum.num 0

/-- A stand-in for `Math.sqrt` in concrete evaluations of the services
analyzer; the concrete inputs below carry no motion data, so it is never
applied. -/
def sqrtQZero : ℚ → ℚ := fun _ => 0

/-- An arithmetic progression of pressure values, `value[i] = a·i + b`. -/
def linSeries (a b : ℚ) (n : ℕ) : List ℚ :=
  (List.range n).map fun (i : ℕ) => a * (i : ℚ) + b

/-- The exact linear ramp `pressure[i] = i / n` of the spec. -/
def rampSeries (n : ℕ) : List ℚ :=
  (List.range n).map fun (i : ℕ) => (i : ℚ) / n

end WeightCha

/-!
## Theorems
-/

namespace WeightCha

namespace ServicesAnalyzer

theorem browserConfidenceBoost_nonneg (m : String) : 0 ≤ browserConfidenceBoost m := by
  unfold browserConfidenceBoost
  split <;> norm_num

theorem calculateCompositeConfidence_eq (p t m d b : ℚ) :
    calculateCompositeConfidence p t m d b =
      0.35 * p + 0.25 * t + 0.15 * m + 0.10 * d + 0.15 * b := by
  simp [calculateCompositeConfidence]
  norm_num
  ring

theorem analyzePressurePattern_nonneg (pd : List PressureSample) (mult : ℚ) :
    0 ≤ analyzePressurePattern pd mult := by
  simp only [analyzePressurePattern]
  split_ifs <;> norm_num

theorem analyzeTimingPattern_nonneg (pd : List PressureSample) :
    0 ≤ analyzeTimingPattern pd := by
  simp only [analyzeTimingPattern]
  split_ifs <;> norm_num

theorem analyzeMotionPattern_nonneg (sqrtQ : ℚ → ℚ) (md : List MotionSample) :
    0 ≤ analyzeMotionPattern sqrtQ md := by
  simp only [analyzeMotionPattern]
  split_ifs <;> norm_num

theorem analyzeDeviceCharacteristics_nonneg (d : DeviceInfo) :
    0 ≤ analyzeDeviceCharacteristics d := by
  rcases d with ⟨ua, sc, tp⟩
  rcases sc with _ | ⟨w, h⟩
  · simp only [analyzeDeviceCharacteristics]
    dsimp only
    split_ifs <;> norm_num
  · rcases w with _ | w <;> rcases h with _ | h <;>
      · simp only [analyzeDeviceCharacteristics]
        dsimp only
        split_ifs <;> norm_num

theorem analyzeBiometricSignature_nonneg (sqrtQ : ℚ → ℚ)
    (pd : List PressureSample) (md : List MotionSample) :
    0 ≤ analyzeBiometricSignature sqrtQ pd md := by
  simp only [analyzeBiometricSignature]
  split_ifs <;> norm_num

/-- C1: for every input that `analyzePattern` scores, the returned confidence
lies in `[0,1]` and the `isHuman` flag equals `confidence ≥ 0.65` exactly.
The threshold `0.65` is the hardcoded constant of the services analyzer
(line 84); it lies in the documented `0.65`–`0.8` range; the statement holds
for every input — in particular for every `challengeType` the verification
service passes through — so the threshold is never varied by challenge type.
Quantifying over `sqrtQ` covers every possible behaviour of `Math.sqrt`. -/
theorem analyzePattern_confidence_unit_and_threshold
    (sqrtQ : ℚ → ℚ) (now : ℚ) (v : VerificationData) :
    0 ≤ (analyzePattern sqrtQ now v).confidence ∧
    (analyzePattern sqrtQ now v).confidence ≤ 1 ∧
    (analyzePattern sqrtQ now v).isHuman =
      decide ((0.65 : ℚ) ≤ (analyzePattern sqrtQ now v).confidence) := by
  unfold analyzePattern
  split
  · refine ⟨le_refl 0, by norm_num, by norm_num⟩
  · dsimp only
    refine ⟨le_min (by norm_num) (add_nonneg ?_ (browserConfidenceBoost_nonneg _)),
      min_le_left _ _, rfl⟩
    rw [calculateCompositeConfidence_eq]
    have h1 := analyzePressurePattern_nonneg v.pressureData
      (pressureMultiplierOf (getDeviceProfileName v.deviceInfo))
    have h2 := analyzeTimingPattern_nonneg v.pressureData
    have h3 := analyzeMotionPattern_nonneg sqrtQ v.motionData
    have h4 := analyzeDeviceCharacteristics_nonneg v.deviceInfo
    have h5 := analyzeBiometricSignature_nonneg sqrtQ v.pressureData v.motionData
    nlinarith

/-- C10: the scoring pipeline is a pure function of the verification data.
Two runs of `analyzePattern` on the same input, at different wall-clock
times, return results that agree on every field — `isHuman` and `confidence`
included — except the reported `timestamp` metadata. -/
theorem analyzePattern_deterministic (sqrtQ : ℚ → ℚ) (v : VerificationData) (t1 t2 : ℚ) :
    analyzePattern sqrtQ t1 v = { analyzePattern sqrtQ t2 v with timestamp := t1 } := by
  unfold analyzePattern
  split <;> rfl

end ServicesAnalyzer

namespace Lifecycle

open ServicesAnalyzer

set_option maxHeartbeats 1000000
set_option maxRecDepth 8000

theorem ev_release :
    hasNaturalPressureRelease [2/5, 41/100, 39/100, 21/50, 2/5] = true := by
  norm_num [hasNaturalPressureRelease, jsMax, List.max?,
    List.foldl, max_def, List.indexOf, List.findIdx, List.findIdx.go, beq_iff_eq,
    List.drop, List.zip, List.zipWith, List.all_cons, List.all_nil, decide_eq_true_eq,
    beq_eq_decide, cond_eq_if]

theorem ev_pressure : analyzePressurePattern samples5 1 = 11/20 := by
  have hcal : List.map (fun p => p * 1) (List.map sampleP samples5)
      = [2/5, 41/100, 39/100, 21/50, 2/5] := by
    norm_num [samples5, sampleAt, sampleP]
  simp only [analyzePressurePattern, hcal]
  norm_num [samples5, sampleAt, sampleP, calculateVariance, calculateNaturalness,
    calculateSmoothness, hasGradualPressureIncrease, ev_release, jsMax, List.max?,
    List.foldl, max_def, List.takeWhile, List.filter_cons, List.filter_nil,
    abs_of_nonneg, abs_of_nonpos, decide_eq_true_eq, Bool.and_eq_true,
    List.zip, List.zipWith]

theorem ev_timing : analyzeTimingPattern samples5 = 3/10 := by
  norm_num [analyzeTimingPattern, samples5, sampleAt, intervalsOf, calculateVariance,
    calculateRhythmicity, max_def]

theorem ev_motion : analyzeMotionPattern sqrtQZero [] = 1/2 := by
  norm_num [analyzeMotionPattern]

theorem ev_device : analyzeDeviceCharacteristics emptyDevice = 1/2 := by
  norm_num [analyzeDeviceCharacteristics, emptyDevice, strIncludes, charsContains,
    charsAtStart]

theorem ev_biometric : analyzeBiometricSignature sqrtQZero samples5 [] = 1/2 := by
  norm_num [analyzeBiometricSignature, samples5, sampleAt, createPressureSignature,
    createMotionSignature, normalizeArray, strideSample, roundTo2, calculateUniqueness,
    calculateComplexity, calculateVariance, sampleP, motionMagnitudes, List.range_succ,
    round_eq, List.max?, List.min?, List.foldl, max_def, min_def, List.filterMap]

theorem ev_profile : getDeviceProfileName emptyDevice = "generic" := by
  norm_num [getDeviceProfileName, emptyDevice, strIncludes, charsContains, charsAtStart]

theorem ev_mult : pressureMultiplierOf "generic" = 1 := by
  unfold pressureMultiplierOf
  split <;> simp_all <;> norm_num

theorem ev_boost : browserConfidenceBoost "pointerEvents" = 1/20 := by
  unfold browserConfidenceBoost
  split <;> simp_all <;> norm_num

set_option maxRecDepth 2000

set_option maxRecDepth 10000 in
theorem analyzePattern_eq_of_enough (sqrtQ : ℚ → ℚ) (now : ℚ) (v : VerificationData)
    (h : ¬ v.pressureData.length < 5) :
    analyzePattern sqrtQ now v =
      { isHuman := decide ((0.65 : ℚ) ≤ min 1 (calculateCompositeConfidence
          (analyzePressurePattern v.pressureData
            (pressureMultiplierOf (getDeviceProfileName v.deviceInfo)))
          (analyzeTimingPattern v.pressureData)
          (analyzeMotionPattern sqrtQ v.motionData)
          (analyzeDeviceCharacteristics v.deviceInfo)
          (analyzeBiometricSignature sqrtQ v.pressureData v.motionData)
          + browserConfidenceBoost v.detectionMethod))
        confidence := min 1 (calculateCompositeConfidence
          (analyzePressurePattern v.pressureData
            (pressureMultiplierOf (getDeviceProfileName v.deviceInfo)))
          (analyzeTimingPattern v.pressureData)
          (analyzeMotionPattern sqrtQ v.motionData)
          (analyzeDeviceCharacteristics v.deviceInfo)
          (analyzeBiometricSignature sqrtQ v.pressureData v.motionData)
          + browserConfidenceBoost v.detectionMethod)
        detectionMethod := v.detectionMethod
        deviceProfileName := getDeviceProfileName v.deviceInfo
        timestamp := now } := by
  simp only [analyzePattern]
  rw [if_neg h]

theorem ev_analyze : analyzePattern sqrtQZero 500000 vd0 =
    { isHuman := false, confidence := 207/400, detectionMethod := "pointerEvents",
      deviceProfileName := "generic", timestamp := 500000 } := by
  rw [analyzePattern_eq_of_enough sqrtQZero 500000 vd0 (by norm_num [vd0, samples5])]
  simp only [vd0]
  simp only [ev_profile, ev_mult, ev_boost, ev_pressure, ev_timing, ev_motion,
    ev_device, ev_biometric]
  norm_num [calculateCompositeConfidence, min_def, decide_eq_true_eq,
    decide_eq_false_iff_not]

theorem vd0_eta :
    ({ pressureData := samples5, motionData := [], deviceInfo := emptyDevice,
       detectionMethod := "pointerEvents", challengeType := "pressure_pattern",
       challengeDifficulty := "medium" } : VerificationData) = vd0 := rfl

theorem submit0_eq :
    submitVerification sqrtQZero state0 req0 = Except.ok (state1, verif1) := by
  simp only [submitVerification, getChallenge, state0, req0, pendingChallenge,
    List.find?, vd0_eta, ev_analyze]
  norm_num [updateChallengeStatus, verificationExpiryMs, jwtSign, jwtExpiryMs,
    state1, verif1, payload1, pendingChallenge, vd0_eta, ev_analyze]

/-- C3 counterexample: the claim says a submission is accepted only while the
current time is strictly before the challenge's `expiresAt`, but the source
rejects only when `new Date() > challenge.expiresAt`, so a submission at
exactly `expiresAt` — here `now = expiresAt = 1000000` on a pending
challenge — succeeds. -/
theorem submitVerification_isOk_atExpiry :
    pendingChallenge.expiresAt = stateAtExpiry.now ∧
    pendingChallenge.status = ChallengeStatus.pending ∧
    (submitVerification sqrtQZero stateAtExpiry req0).isOk = true := by
  refine ⟨by norm_num [pendingChallenge, stateAtExpiry, state0], rfl, ?_⟩
  simp only [submitVerification, getChallenge, stateAtExpiry, state0, req0,
    pendingChallenge, List.find?]
  rfl

theorem find?_updateChallengeStatus (chs : List Challenge) (cid : ℕ) (st : ChallengeStatus) :
    (updateChallengeStatus chs cid st).find? (fun ch => ch.id = cid) =
      (chs.find? fun ch => ch.id = cid).map (fun ch => { ch with status := st }) := by
  induction chs with
  | nil => rfl
  | cons a t ih =>
    by_cases h : a.id = cid
    · simp [updateChallengeStatus, List.find?_cons, h]
    · simp only [updateChallengeStatus, List.map_cons, List.find?_cons] at *
      simp [h, ih]

theorem find?_updateChallengeStatus_ne (chs : List Challenge) (cid cid' : ℕ)
    (st : ChallengeStatus) (h : cid' ≠ cid) :
    (updateChallengeStatus chs cid st).find? (fun ch => ch.id = cid') =
      chs.find? fun ch => ch.id = cid' := by
  induction chs with
  | nil => rfl
  | cons a t ih =>
    by_cases ha : a.id = cid
    · have hcc : cid ≠ cid' := fun hc => h hc.symm
      simp only [updateChallengeStatus, List.map_cons, List.find?_cons] at *
      simp [ha, hcc, ih]
    · by_cases hb : a.id = cid'
      · simp [updateChallengeStatus, List.find?_cons, ha, hb, h, Ne.symm h]
      · simp only [updateChallengeStatus, List.map_cons, List.find?_cons] at *
        simp [ha, hb, ih]

theorem submit_ok_spec (sqrtQ : ℚ → ℚ) (s s' : ServerState) (r : SubmitRequest)
    (v : Verification) (hok : submitVerification sqrtQ s r = Except.ok (s', v)) :
    (∃ ch, getChallenge s r.challengeId = some ch ∧
        ch.status = ChallengeStatus.pending ∧ s.now ≤ ch.expiresAt) ∧
    s'.secret = s.secret ∧ s'.now = s.now ∧ s'.nextId = s.nextId + 1 ∧
    s'.challenges = updateChallengeStatus s.challenges r.challengeId ChallengeStatus.completed ∧
    s'.verifications = v :: s.verifications ∧
    v.id = s.nextId ∧ v.challengeId = r.challengeId ∧
    v.processedAt = s.now ∧ v.expiresAt = s.now + verificationExpiryMs ∧
    v.token = jwtSign s.secret s.now
      { verificationId := v.id, challengeId := r.challengeId,
        isHuman := v.isHuman, confidence := v.confidence, processedAt := s.now } := by
  unfold submitVerification at hok
  cases hch : getChallenge s r.challengeId with
  | none => rw [hch] at hok; exact absurd hok (by simp)
  | some ch =>
    rw [hch] at hok
    dsimp only at hok
    split_ifs at hok with h1 h2
    have hpair := Except.ok.inj hok
    rw [Prod.ext_iff] at hpair
    obtain ⟨hs', hv⟩ := hpair
    dsimp only at hs' hv
    subst hs'
    subst hv
    exact ⟨⟨ch, rfl, not_not.mp h1, not_lt.mp h2⟩, rfl, rfl, rfl, rfl, rfl, rfl, rfl,
      rfl, rfl, rfl⟩

theorem submit_notFound (sqrtQ : ℚ → ℚ) (s : ServerState) (r : SubmitRequest)
    (h : getChallenge s r.challengeId = none) :
    submitVerification sqrtQ s r = Except.error SubmitError.notFound := by
  unfold submitVerification
  rw [h]

theorem submit_invalidState (sqrtQ : ℚ → ℚ) (s : ServerState) (r : SubmitRequest)
    (ch : Challenge) (h : getChallenge s r.challengeId = some ch)
    (hst : ch.status ≠ ChallengeStatus.pending) :
    submitVerification sqrtQ s r = Except.error SubmitError.invalidState := by
  unfold submitVerification
  rw [h]
  dsimp only
  rw [if_pos hst]

theorem submit_expired (sqrtQ : ℚ → ℚ) (s : ServerState) (r : SubmitRequest)
    (ch : Challenge) (h : getChallenge s r.challengeId = some ch)
    (hst : ch.status = ChallengeStatus.pending) (hexp : ch.expiresAt < s.now) :
    submitVerification sqrtQ s r = Except.error SubmitError.expired := by
  unfold submitVerification
  rw [h]
  dsimp only
  rw [if_neg (by simp [hst]), if_pos hexp]

theorem getChallenge_after_submit (sqrtQ : ℚ → ℚ) (s s' : ServerState) (r : SubmitRequest)
    (v : Verification) (ch : Challenge) (hok : submitVerification sqrtQ s r = Except.ok (s', v))
    (hch : getChallenge s r.challengeId = some ch) :
    getChallenge s' r.challengeId = some { ch with status := ChallengeStatus.completed } := by
  obtain ⟨_, _, _, _, hchs, _⟩ := submit_ok_spec _ _ _ _ _ hok
  unfold getChallenge
  rw [hchs, find?_updateChallengeStatus,
    show s.challenges.find? (fun c => c.id = r.challengeId) = some ch from hch]
  rfl

theorem second_submit_invalidState (sqrtQ : ℚ → ℚ) (s s' : ServerState) (r : SubmitRequest)
    (v : Verification) (hok : submitVerification sqrtQ s r = Except.ok (s', v))
    (r' : SubmitRequest) (h : r'.challengeId = r.challengeId) :
    submitVerification sqrtQ s' r' = Except.error SubmitError.invalidState := by
  obtain ⟨⟨ch, hch, _, _⟩, _⟩ := submit_ok_spec _ _ _ _ _ hok
  refine submit_invalidState sqrtQ s' r' { ch with status := ChallengeStatus.completed } ?_ (by simp)
  rw [h]
  exact getChallenge_after_submit sqrtQ s s' r v ch hok hch

theorem submit_preserves_atMostOne (sqrtQ : ℚ → ℚ) (s s' : ServerState) (r : SubmitRequest)
    (v : Verification) (hok : submitVerification sqrtQ s r = Except.ok (s', v))
    (cid : ℕ) (hInv : AtMostOne s cid) : AtMostOne s' cid := by
  obtain ⟨⟨ch, hch, hpend, _⟩, _, _, _, hchs, hvers, _, hvcid, _⟩ := submit_ok_spec _ _ _ _ _ hok
  by_cases hc : cid = r.challengeId
  · subst hc
    have hcount1 : challengeVerifications s' r.challengeId = 1 := by
      unfold challengeVerifications
      rw [hvers, List.filter_cons, if_pos (by simp [hvcid]), List.length_cons]
      have h0 := hInv.2 ch hch hpend
      unfold challengeVerifications at h0
      rw [h0]
    refine ⟨le_of_eq hcount1, fun ch' hch' hpend' => ?_⟩
    rw [getChallenge_after_submit sqrtQ s s' r v ch hok hch] at hch'
    obtain rfl := (Option.some.inj hch').symm
    exact absurd hpend' (by simp)
  · have hchal : getChallenge s' cid = getChallenge s cid := by
      unfold getChallenge
      rw [hchs]
      exact find?_updateChallengeStatus_ne _ _ _ _ hc
    have hcnt : challengeVerifications s' cid = challengeVerifications s cid := by
      unfold challengeVerifications
      rw [hvers, List.filter_cons,
        if_neg (by simp only [hvcid, decide_eq_true_eq]; exact fun hx => hc hx.symm)]
    exact ⟨hcnt ▸ hInv.1, fun ch' h1 h2 => hcnt ▸ hInv.2 ch' (hchal ▸ h1) h2⟩

theorem jwtVerify_sign (secret : ℕ) (now : ℚ) (p : TokenPayload) :
    jwtVerify secret now (jwtSign secret now p) = some p := by
  unfold jwtVerify jwtSign
  rw [if_pos]
  exact ⟨rfl, lt_add_of_pos_right now (by norm_num [jwtExpiryMs])⟩

/-- C3 (amended): at most one Verification per challenge.  A submission is
accepted only while the challenge is `pending` and the current time is not
after `expiresAt` (the source compares with strict `>`, so a submission at
exactly `expiresAt` is still accepted — see the counterexample); a second
sequential submission of the same challenge id is rejected with the typed
`invalidState` error; missing, non-pending, and expired challenges are
rejected with `notFound`, `invalidState`, and `expired` respectively; and
the at-most-one-verification invariant is preserved by every submission. -/
theorem submitVerification_at_most_once :
    (∀ (sqrtQ : ℚ → ℚ) (s s' : ServerState) (r : SubmitRequest) (v : Verification),
       submitVerification sqrtQ s r = Except.ok (s', v) →
       (∃ ch, getChallenge s r.challengeId = some ch ∧
           ch.status = ChallengeStatus.pending ∧ s.now ≤ ch.expiresAt) ∧
       (∀ r' : SubmitRequest, r'.challengeId = r.challengeId →
           submitVerification sqrtQ s' r' = Except.error SubmitError.invalidState) ∧
       (∀ cid, AtMostOne s cid → AtMostOne s' cid)) ∧
    (∀ (sqrtQ : ℚ → ℚ) (s : ServerState) (r : SubmitRequest),
       getChallenge s r.challengeId = none →
       submitVerification sqrtQ s r = Except.error SubmitError.notFound) ∧
    (∀ (sqrtQ : ℚ → ℚ) (s : ServerState) (r : SubmitRequest) (ch : Challenge),
       getChallenge s r.challengeId = some ch → ch.status ≠ ChallengeStatus.pending →
       submitVerification sqrtQ s r = Except.error SubmitError.invalidState) ∧
    (∀ (sqrtQ : ℚ → ℚ) (s : ServerState) (r : SubmitRequest) (ch : Challenge),
       getChallenge s r.challengeId = some ch → ch.status = ChallengeStatus.pending →
       ch.expiresAt < s.now →
       submitVerification sqrtQ s r = Except.error SubmitError.expired) :=
  ⟨fun sqrtQ s s' r v hok =>
     ⟨(submit_ok_spec sqrtQ s s' r v hok).1,
      fun r' h => second_submit_invalidState sqrtQ s s' r v hok r' h,
      fun cid hInv => submit_preserves_atMostOne sqrtQ s s' r v hok cid hInv⟩,
   submit_notFound, submit_invalidState, submit_expired⟩

/-- C3 witness: a concrete pending challenge is submitted once successfully;
the second sequential submission of the same challenge id is rejected with
the typed `invalidState` error and the state holds exactly one verification
for that challenge. -/
theorem submitVerification_at_most_once_witness :
    submitVerification sqrtQZero state1 req0 = Except.error SubmitError.invalidState :=
  (submitVerification_at_most_once.1 sqrtQZero state0 state1 req0 verif1 submit0_eq).2.1
    req0 rfl

/-- C4: `validateToken` fails — returning the one fixed `{ valid: false }`
record that carries no further information — whenever any of its three checks
fails: JWT signature/expiry verification, existence of the referenced
Verification, or Verification non-expiry.  Conversely any result with
`valid = false` is that exact record, so the caller cannot tell the failure
modes apart.  In particular a token with a correct signature whose
Verification has expired yields `valid = false`. -/
theorem validateToken_checks_all_and_fails_uniformly :
    (∀ (s : ServerState) (t : Token), jwtVerify s.secret s.now t = none →
       validateToken s t = failValidateResult) ∧
    (∀ (s : ServerState) (t : Token) (p : TokenPayload),
       jwtVerify s.secret s.now t = some p →
       getVerification s p.verificationId = none →
       validateToken s t = failValidateResult) ∧
    (∀ (s : ServerState) (t : Token) (p : TokenPayload) (verif : Verification),
       jwtVerify s.secret s.now t = some p →
       getVerification s p.verificationId = some verif →
       verif.expiresAt < s.now →
       validateToken s t = failValidateResult) ∧
    failValidateResult.valid = false ∧
    (∀ (s : ServerState) (t : Token), (validateToken s t).valid = false →
       validateToken s t = failValidateResult) := by
  refine ⟨?_, ?_, ?_, rfl, ?_⟩
  · intro s t h
    unfold validateToken
    rw [h]
  · intro s t p h1 h2
    unfold validateToken
    rw [h1]
    dsimp only
    rw [h2]
  · intro s t p verif h1 h2 h3
    unfold validateToken
    rw [h1]
    dsimp only
    rw [h2]
    dsimp only
    rw [if_pos h3]
  · intro s t hv
    unfold validateToken at hv ⊢
    cases h1 : jwtVerify s.secret s.now t with
    | none => rfl
    | some p =>
      dsimp only
      cases h2 : getVerification s p.verificationId with
      | none => rfl
      | some verif =>
        dsimp only
        by_cases h3 : verif.expiresAt < s.now
        · rw [if_pos h3]
        · rw [h1] at hv
          dsimp only at hv
          rw [h2] at hv
          dsimp only at hv
          rw [if_neg h3] at hv
          simp at hv

/-- C4 witness: a token with a cryptographically correct signature whose
verification record has expired yields the uniform failure result. -/
theorem validateToken_checks_witness :
    validateToken stateExpired expiredToken = failValidateResult ∧
    jwtVerify stateExpired.secret stateExpired.now expiredToken = some expiredPayload :=
  ⟨validateToken_checks_all_and_fails_uniformly.2.2.1 stateExpired expiredToken
      expiredPayload expiredVerification
      (by norm_num [stateExpired, expiredToken, jwtVerify, jwtSign, jwtExpiryMs])
      (by norm_num [getVerification, stateExpired, expiredVerification, expiredPayload,
        List.find?])
      (by norm_num [stateExpired, expiredVerification]),
   by norm_num [stateExpired, expiredToken, jwtVerify, jwtSign, jwtExpiryMs]⟩

/-- C5: round-trip.  Whenever `submitVerification` succeeds, validating the
returned token against the post-submission state (the clock has not moved,
so this is validation "immediately afterwards") yields `valid = true`
together with exactly the `isHuman` and `confidence` that the returned
Verification carries. -/
theorem validateToken_roundtrip (sqrtQ : ℚ → ℚ) (s s' : ServerState) (r : SubmitRequest)
    (v : Verification) (hok : submitVerification sqrtQ s r = Except.ok (s', v)) :
    validateToken s' v.token =
      { valid := true, isHuman := some v.isHuman, confidence := some v.confidence,
        verifiedAt := some v.processedAt, expiresAt := some v.expiresAt } := by
  obtain ⟨_, hsec, hnow, _, _, hvers, hid, _, hproc, hexp, htok⟩ :=
    submit_ok_spec sqrtQ s s' r v hok
  unfold validateToken
  rw [htok, hsec, hnow, jwtVerify_sign]
  dsimp only
  unfold getVerification
  rw [hvers]
  rw [show (v :: s.verifications).find? (fun w => w.id = v.id) = some v from by
    simp [List.find?_cons]]
  dsimp only
  rw [if_neg (by rw [hexp]; norm_num [verificationExpiryMs])]

/-- C5 witness: the concrete submission of `req0` round-trips through
`validateToken` with the same verdict. -/
theorem validateToken_roundtrip_witness :
    validateToken state1 verif1.token =
      { valid := true, isHuman := some verif1.isHuman,
        confidence := some verif1.confidence, verifiedAt := some verif1.processedAt,
        expiresAt := some verif1.expiresAt } :=
  validateToken_roundtrip sqrtQZero state0 state1 req0 verif1 submit0_eq

/-- C6 (code-bug evidence): after a successful submission the token is valid
and the matching Verification (with its id) exists in the store, yet the
`POST /validate-token` handler's response carries no `verificationId` — the
service result exposes `verifiedAt` instead, so the handler's
`result.verificationId` is `undefined`. -/
theorem validateTokenRoute_omits_verificationId :
    (validateTokenRoute state1 verif1.token).valid = true ∧
    getVerification state1 verif1.id = some verif1 ∧
    (validateTokenRoute state1 verif1.token).verificationId = none := by
  refine ⟨?_, ?_, rfl⟩
  · norm_num [validateTokenRoute, validateToken, jwtVerify, jwtSign, jwtExpiryMs,
      getVerification, state1, verif1, payload1, List.find?, failValidateResult]
  · norm_num [getVerification, state1, verif1, List.find?]

/-- C2: bodies whose pressure series has fewer than 5 or more than 10000
samples are rejected by the Joi schema in the `validateRequest` middleware:
the route answers `Validation failed`, no score of any kind is produced, and
the server state — hence any analysis or verification record — is untouched. -/
theorem submitRoute_rejects_bad_sample_count (sqrtQ : ℚ → ℚ) (s : ServerState)
    (r : SubmitRequest)
    (h : r.pressureData.length < 5 ∨ 10000 < r.pressureData.length) :
    submitRoute sqrtQ s r = (SubmitRouteOutcome.validationError, s) := by
  have hv : ¬ (submitBodyValid r = true) := by
    simp only [submitBodyValid, Bool.and_eq_true, decide_eq_true_eq]
    rintro ⟨⟨⟨h5, h10⟩, _⟩, _⟩
    rcases h with h | h
    · omega
    · omega
  unfold submitRoute
  rw [if_pos hv]

/-- C2 witness: a two-sample submission is rejected as a validation error
with the state unchanged. -/
theorem submitRoute_rejects_witness :
    submitRoute sqrtQZero state0 shortReq = (SubmitRouteOutcome.validationError, state0) :=
  submitRoute_rejects_bad_sample_count sqrtQZero state0 shortReq
    (Or.inl (by norm_num [shortReq, req0]))

end Lifecycle

namespace UtilsAnalyzer

theorem sum_range_cast (n : ℕ) :
    (∑ i in Finset.range n, (i : ℚ)) = n * (n - 1) / 2 := by
  induction n with
  | zero => simp
  | succ k ih =>
    rw [Finset.sum_range_succ, ih]
    push_cast
    ring

theorem sum_range_sq_cast (n : ℕ) :
    (∑ i in Finset.range n, (i : ℚ) * (i : ℚ)) = n * (n - 1) * (2 * n - 1) / 6 := by
  induction n with
  | zero => simp
  | succ k ih =>
    rw [Finset.sum_range_succ, ih]
    push_cast
    ring

theorem linSeries_length (a b : ℚ) (n : ℕ) : (linSeries a b n).length = n := by
  unfold linSeries
  rw [List.length_map, List.length_range]

theorem linSeries_getD (a b : ℚ) (n i : ℕ) (h : i < n) :
    (linSeries a b n).getD i 0 = a * i + b := by
  unfold linSeries
  rw [List.getD_eq_getElem?_getD, List.getElem?_map, List.getElem?_range h]
  rfl

theorem replicate_eq_linSeries (n : ℕ) (c : ℚ) :
    List.replicate n c = linSeries 0 c n := by
  induction n with
  | zero => rfl
  | succ k ih =>
    simp only [linSeries, List.range_succ, List.map_append, List.map_cons, List.map_nil]
    simp only [linSeries] at ih
    rw [List.replicate_succ']
    rw [ih]
    simp

theorem checkLinearity_linSeries (a b : ℚ) (n : ℕ) (hn : 2 ≤ n) :
    checkLinearity (linSeries a b n) = (if a = 0 then JSNum.nan else JSNum.num 1) := by
  have hn0 : (n : ℚ) ≠ 0 := Nat.cast_ne_zero.mpr (by omega)
  have hnq : (2 : ℚ) ≤ (n : ℚ) := by exact_mod_cast hn
  have hS1 : (∑ i in Finset.range n, (i : ℚ)) = n * (n - 1) / 2 := sum_range_cast n
  have hS2 : (∑ i in Finset.range n, (i : ℚ) * (i : ℚ)) = n * (n - 1) * (2 * n - 1) / 6 :=
    sum_range_sq_cast n
  have hsq : (4 : ℚ) ≤ (n : ℚ) * (n : ℚ) := by nlinarith
  have hdenpos :
      0 < (n : ℚ) * (∑ i in Finset.range n, (i : ℚ) * (i : ℚ)) -
        (∑ i in Finset.range n, (i : ℚ)) * (∑ i in Finset.range n, (i : ℚ)) := by
    rw [hS1, hS2]
    nlinarith [hsq, hnq]
  have hy : (∑ i in Finset.range n, (linSeries a b n).getD i 0) =
      a * (∑ i in Finset.range n, (i : ℚ)) + b * n :=
    calc (∑ i in Finset.range n, (linSeries a b n).getD i 0)
        = ∑ i in Finset.range n, (a * (i : ℚ) + b) :=
          Finset.sum_congr rfl fun i hi => linSeries_getD a b n i (Finset.mem_range.mp hi)
      _ = a * (∑ i in Finset.range n, (i : ℚ)) + b * n := by
          rw [Finset.sum_add_distrib, ← Finset.mul_sum, Finset.sum_const,
            Finset.card_range, nsmul_eq_mul, mul_comm (n : ℚ) b]
  have hxy : (∑ i in Finset.range n, (i : ℚ) * (linSeries a b n).getD i 0) =
      a * (∑ i in Finset.range n, (i : ℚ) * (i : ℚ)) +
        b * (∑ i in Finset.range n, (i : ℚ)) :=
    calc (∑ i in Finset.range n, (i : ℚ) * (linSeries a b n).getD i 0)
        = ∑ i in Finset.range n, (a * ((i : ℚ) * (i : ℚ)) + b * (i : ℚ)) :=
          Finset.sum_congr rfl fun i hi => by
            rw [linSeries_getD a b n i (Finset.mem_range.mp hi)]; ring
      _ = _ := by rw [Finset.sum_add_distrib, ← Finset.mul_sum, ← Finset.mul_sum]
  simp only [checkLinearity, linSeries_length]
  rw [hy, hxy]
  rw [if_neg (ne_of_gt hdenpos)]
  have hslope :
      ((n : ℚ) * (a * (∑ i in Finset.range n, (i : ℚ) * (i : ℚ)) +
          b * (∑ i in Finset.range n, (i : ℚ))) -
        (∑ i in Finset.range n, (i : ℚ)) *
          (a * (∑ i in Finset.range n, (i : ℚ)) + b * n)) /
      ((n : ℚ) * (∑ i in Finset.range n, (i : ℚ) * (i : ℚ)) -
        (∑ i in Finset.range n, (i : ℚ)) * (∑ i in Finset.range n, (i : ℚ))) = a := by
    rw [show (n : ℚ) * (a * (∑ i in Finset.range n, (i : ℚ) * (i : ℚ)) +
          b * (∑ i in Finset.range n, (i : ℚ))) -
        (∑ i in Finset.range n, (i : ℚ)) *
          (a * (∑ i in Finset.range n, (i : ℚ)) + b * n) =
        a * ((n : ℚ) * (∑ i in Finset.range n, (i : ℚ) * (i : ℚ)) -
          (∑ i in Finset.range n, (i : ℚ)) * (∑ i in Finset.range n, (i : ℚ))) from by ring,
      mul_div_assoc, div_self (ne_of_gt hdenpos), mul_one]
  rw [hslope]
  have hint : (a * (∑ i in Finset.range n, (i : ℚ)) + b * n -
      a * (∑ i in Finset.range n, (i : ℚ))) / (n : ℚ) = b := by
    rw [show a * (∑ i in Finset.range n, (i : ℚ)) + b * n -
        a * (∑ i in Finset.range n, (i : ℚ)) = b * n from by ring,
      mul_div_assoc, div_self hn0, mul_one]
  rw [hint]
  have hres : (∑ i in Finset.range n,
      ((linSeries a b n).getD i 0 - (a * (i : ℚ) + b)) ^ 2) = 0 :=
    Finset.sum_eq_zero fun i hi => by
      rw [linSeries_getD a b n i (Finset.mem_range.mp hi)]
      ring
  rw [hres]
  have htot : (∑ i in Finset.range n,
      ((linSeries a b n).getD i 0 -
        (a * (∑ j in Finset.range n, (j : ℚ)) + b * n) / (n : ℚ)) ^ 2) =
      a ^ 2 * (((n : ℚ) * (∑ j in Finset.range n, (j : ℚ) * (j : ℚ)) - (∑ j in Finset.range n, (j : ℚ)) * (∑ j in Finset.range n, (j : ℚ))) / (n : ℚ)) :=
    calc (∑ i in Finset.range n,
        ((linSeries a b n).getD i 0 - (a * (∑ j in Finset.range n, (j : ℚ)) + b * n) / (n : ℚ)) ^ 2)
        = ∑ i in Finset.range n,
            (a * (i : ℚ) + b - (a * (∑ j in Finset.range n, (j : ℚ)) + b * n) / (n : ℚ)) ^ 2 :=
          Finset.sum_congr rfl fun i hi => by
            rw [linSeries_getD a b n i (Finset.mem_range.mp hi)]
      _ = ∑ i in Finset.range n,
            (a ^ 2 * ((i : ℚ) * (i : ℚ)) - 2 * a ^ 2 * (∑ j in Finset.range n, (j : ℚ)) / (n : ℚ) * (i : ℚ) +
              a ^ 2 * ((∑ j in Finset.range n, (j : ℚ)) * (∑ j in Finset.range n, (j : ℚ))) / ((n : ℚ) * (n : ℚ))) :=
          Finset.sum_congr rfl fun i hi => by
            field_simp
            ring
      _ = a ^ 2 * (∑ j in Finset.range n, (j : ℚ) * (j : ℚ)) - 2 * a ^ 2 * (∑ j in Finset.range n, (j : ℚ)) / (n : ℚ) * (∑ j in Finset.range n, (j : ℚ)) +
            (n : ℚ) * (a ^ 2 * ((∑ j in Finset.range n, (j : ℚ)) * (∑ j in Finset.range n, (j : ℚ))) / ((n : ℚ) * (n : ℚ))) := by
          rw [Finset.sum_add_distrib, Finset.sum_sub_distrib, ← Finset.mul_sum,
            ← Finset.mul_sum, Finset.sum_const, Finset.card_range, nsmul_eq_mul]
      _ = a ^ 2 * (((n : ℚ) * (∑ j in Finset.range n, (j : ℚ) * (j : ℚ)) - (∑ j in Finset.range n, (j : ℚ)) * (∑ j in Finset.range n, (j : ℚ))) / (n : ℚ)) := by
          field_simp
          ring
  rw [htot]
  by_cases ha : a = 0
  · rw [if_pos (by rw [ha]; ring), if_pos rfl, if_pos ha]
  · have hnpos : (0 : ℚ) < n := by linarith
    have htotpos : 0 < a ^ 2 * (((n : ℚ) * (∑ j in Finset.range n, (j : ℚ) * (j : ℚ)) -
        (∑ j in Finset.range n, (j : ℚ)) * (∑ j in Finset.range n, (j : ℚ))) / (n : ℚ)) :=
      mul_pos (pow_two_pos_of_ne_zero ha) (div_pos hdenpos hnpos)
    rw [if_neg (ne_of_gt htotpos), zero_div, sub_zero, if_neg ha]

theorem checkLinearity_replicate (n : ℕ) (c : ℚ) (hn : 2 ≤ n) :
    checkLinearity (List.replicate n c) = JSNum.nan := by
  rw [replicate_eq_linSeries, checkLinearity_linSeries 0 c n hn, if_pos rfl]

theorem rampSeries_eq_linSeries (n : ℕ) :
    rampSeries n = linSeries (1 / (n : ℚ)) 0 n := by
  unfold rampSeries linSeries
  rw [show (fun (i : ℕ) => (i : ℚ) / n) = fun (i : ℕ) => 1 / (n : ℚ) * i + 0 from
    funext fun i => by rw [add_zero]; ring]

theorem checkLinearity_rampSeries (n : ℕ) (hn : 2 ≤ n) :
    checkLinearity (rampSeries n) = JSNum.num 1 := by
  rw [rampSeries_eq_linSeries, checkLinearity_linSeries _ _ n hn,
    if_neg (one_div_ne_zero (Nat.cast_ne_zero.mpr (by omega)))]

theorem cv_replicate (sq : ℚ → JSNum) (n : ℕ) (c : ℚ) (hn : 1 ≤ n)
    (hs : sq 0 = JSNum.num 0) :
    (calculateStatistics sq (List.replicate n c)).coefficientOfVariation = jsDivQ 0 c := by
  have hn0 : (n : ℚ) ≠ 0 := Nat.cast_ne_zero.mpr (by omega)
  simp only [calculateStatistics, List.length_replicate]
  rw [if_neg (by omega : ¬ n = 0)]
  dsimp only
  rw [List.sum_replicate, nsmul_eq_mul, mul_div_cancel_left₀ c hn0, List.map_replicate]
  rw [show (c - c) ^ 2 = 0 from by ring, List.sum_replicate, smul_zero, zero_div]
  simp [jsSqrt, hs, jsDivJ]

theorem calculateVariance_replicate (m : ℕ) (k : ℚ) :
    ServicesAnalyzer.calculateVariance (List.replicate m k) = 0 := by
  unfold ServicesAnalyzer.calculateVariance
  rcases Nat.eq_zero_or_pos m with hm | hm
  · subst hm
    rfl
  · have hm0 : (m : ℚ) ≠ 0 := Nat.cast_ne_zero.mpr (by omega)
    rw [if_neg (by simp [List.length_replicate]; omega)]
    dsimp only
    rw [List.length_replicate, List.sum_replicate, nsmul_eq_mul,
      mul_div_cancel_left₀ k hm0, List.map_replicate,
      show (k - k) ^ 2 = 0 from by ring, List.sum_replicate, smul_zero, zero_div]

/-- C7 counterexample: contrary to the claim, `coefficientOfVariation` has no
guard for a zero mean — on the all-zero five-sample series it is `0/0`, NaN —
and the R² regression is NaN (`0/0` again) on a constant series rather than
well-defined. -/
theorem cv_and_r2_nan_counterexample :
    (calculateStatistics sqrtAtZero [0, 0, 0, 0, 0]).coefficientOfVariation = JSNum.nan ∧
    checkLinearity [1, 1, 1, 1, 1] = JSNum.nan := by
  constructor
  · rw [show [(0 : ℚ), 0, 0, 0, 0] = List.replicate 5 (0 : ℚ) from rfl,
      cv_replicate sqrtAtZero 5 0 (by norm_num) rfl]
    simp [jsDivQ]
  · rw [show [(1 : ℚ), 1, 1, 1, 1] = List.replicate 5 (1 : ℚ) from rfl,
      checkLinearity_replicate 5 1 (by norm_num)]

/-- C7 (amended): the statistics helpers never throw, and the extractor branch
logic always returns one of its fixed numeric scores even on degenerate input
(IEEE comparisons with NaN are all false, so NaN falls into a numeric default
branch); but `coefficientOfVariation` itself does not guard a zero mean — it
is NaN on every all-zero series — and R² is NaN on every constant series of
at least two samples. -/
theorem stats_helpers_numeric_fallback :
    (∀ (sq : ℚ → JSNum) (ps : List ℚ),
       analyzeVariance sq ps = 0.2 ∨ analyzeVariance sq ps = 0.3 ∨
       analyzeVariance sq ps = 0.9 ∨ analyzeVariance sq ps = 0.6) ∧
    (∀ (sq : ℚ → JSNum) (ps : List ℚ),
       analyzeStability sq ps = 0.3 ∨ analyzeStability sq ps = 0.4 ∨
       analyzeStability sq ps = 0.8) ∧
    (∀ ps : List ℚ, 0.1 ≤ analyzeNaturalness ps ∧ analyzeNaturalness ps ≤ 1) ∧
    (∀ (n : ℕ) (c : ℚ), 2 ≤ n → checkLinearity (List.replicate n c) = JSNum.nan) ∧
    (∀ (sq : ℚ → JSNum) (n : ℕ), 1 ≤ n → sq 0 = JSNum.num 0 →
       (calculateStatistics sq (List.replicate n (0 : ℚ))).coefficientOfVariation =
         JSNum.nan) := by
  refine ⟨?_, ?_, ?_, ?_, ?_⟩
  · intro sq ps
    simp only [analyzeVariance]
    split_ifs <;> norm_num
  · intro sq ps
    simp only [analyzeStability]
    split_ifs <;> norm_num
  · intro ps
    simp only [analyzeNaturalness]
    split_ifs <;> constructor <;> norm_num [max_def]
  · intro n c hn
    exact checkLinearity_replicate n c hn
  · intro sq n hn hs
    rw [cv_replicate sq n 0 hn hs]
    simp [jsDivQ]

/-- C7 witness: at two samples short inputs still produce the numeric default
scores. -/
theorem stats_helpers_numeric_fallback_witness :
    (analyzeVariance sqrtAtZero [] = 0.2 ∨ analyzeVariance sqrtAtZero [] = 0.3 ∨
     analyzeVariance sqrtAtZero [] = 0.9 ∨ analyzeVariance sqrtAtZero [] = 0.6) ∧
    checkLinearity (List.replicate 2 (3 : ℚ)) = JSNum.nan :=
  ⟨stats_helpers_numeric_fallback.1 sqrtAtZero [],
   stats_helpers_numeric_fallback.2.2.2.1 2 3 (by norm_num)⟩

/-- C8 counterexample: a perfectly constant all-zero series of valid length
does not score at the low bound — its coefficient of variation is `0/0 = NaN`
and all NaN comparisons are false, so `analyzeVariance` answers the moderate
0.6 and `analyzeStability` the high 0.8. -/
theorem constant_zero_series_moderate_score :
    analyzeVariance sqrtAtZero (List.replicate 50 (0 : ℚ)) = 0.6 ∧
    analyzeStability sqrtAtZero (List.replicate 50 (0 : ℚ)) = 0.8 := by
  have hcv := cv_replicate sqrtAtZero 50 0 (by norm_num) rfl
  constructor
  · simp only [analyzeVariance, hcv]
    norm_num [jsDivQ, JSNum.ltB, JSNum.gtB, JSNum.geB, JSNum.leB]
  · simp only [analyzeStability, hcv]
    norm_num [jsDivQ, JSNum.ltB, JSNum.gtB, JSNum.geB, JSNum.leB]

/-- C8 (amended): every constant pressure series with a nonzero value scores
at the low bound of its variance-style extractor — 0.2 for `analyzeVariance`
(`pressure_pattern`) and 0.3 for `analyzeStability` (`sustained_pressure`),
these being the minima of the respective branch values — and in the services
analyzer a constant series has variance exactly 0, below the human band; only
the all-zero constant series escapes to the moderate branch via NaN. -/
theorem constant_series_low_variance_scores :
    (∀ (sq : ℚ → JSNum) (n : ℕ) (c : ℚ), 1 ≤ n → c ≠ 0 → sq 0 = JSNum.num 0 →
       analyzeVariance sq (List.replicate n c) = 0.2 ∧
       analyzeStability sq (List.replicate n c) = 0.3) ∧
    (∀ (sq : ℚ → JSNum) (ps : List ℚ), 0.2 ≤ analyzeVariance sq ps) ∧
    (∀ (sq : ℚ → JSNum) (ps : List ℚ), 0.3 ≤ analyzeStability sq ps) ∧
    (∀ (m : ℕ) (k : ℚ), ServicesAnalyzer.calculateVariance (List.replicate m k) = 0) := by
  refine ⟨?_, ?_, ?_, calculateVariance_replicate⟩
  · intro sq n c hn hc hs
    have hcv : (calculateStatistics sq (List.replicate n c)).coefficientOfVariation =
        JSNum.num 0 := by
      rw [cv_replicate sq n c hn hs]
      simp [jsDivQ, hc]
    constructor
    · simp only [analyzeVariance, hcv]
      norm_num [JSNum.ltB]
    · simp only [analyzeStability, hcv]
      norm_num [JSNum.ltB]
  · intro sq ps
    simp only [analyzeVariance]
    split_ifs <;> norm_num
  · intro sq ps
    simp only [analyzeStability]
    split_ifs <;> norm_num

/-- C8 witness: a constant 0.4-pressure 50-sample series scores exactly the
low bounds 0.2 and 0.3. -/
theorem constant_series_low_variance_scores_witness :
    analyzeVariance sqrtAtZero (List.replicate 50 (2/5 : ℚ)) = 0.2 ∧
    analyzeStability sqrtAtZero (List.replicate 50 (2/5 : ℚ)) = 0.3 :=
  constant_series_low_variance_scores.1 sqrtAtZero 50 (2/5) (by norm_num) (by norm_num) rfl

theorem rampSeries_nodup (n : ℕ) (hn : 1 ≤ n) : (rampSeries n).Nodup := by
  unfold rampSeries
  have hn0 : (n : ℚ) ≠ 0 := Nat.cast_ne_zero.mpr (by omega)
  refine List.Nodup.map ?_ (List.nodup_range n)
  intro i j hij
  have h2 : (i : ℚ) = (j : ℚ) := by
    have := congrArg (fun q => q * (n : ℚ)) hij
    simpa [div_mul_cancel₀, hn0] using this
  exact_mod_cast h2

theorem rampSeries_length (n : ℕ) : (rampSeries n).length = n := by
  unfold rampSeries
  rw [List.length_map, List.length_range]

theorem uniqueRatio_rampSeries (n : ℕ) (hn : 1 ≤ n) :
    uniqueRatio (rampSeries n) = JSNum.num 1 := by
  unfold uniqueRatio
  rw [List.Nodup.dedup (rampSeries_nodup n hn), rampSeries_length]
  have hn0 : (n : ℚ) ≠ 0 := Nat.cast_ne_zero.mpr (by omega)
  simp [jsDivQ, hn0, div_self]

/-- C9: on every exact linear ramp `pressure[i] = i/n` of valid length the
index-based regression yields R² = 1 > 0.9, so the naturalness score is
exactly the penalized `1 × 0.4`; moreover the two penalties combine
multiplicatively, so excessive linearity alone caps the score at 0.4 and
excessive value repetition alone caps it at 0.5, on any series. -/
theorem naturalness_ramp_penalized :
    (∀ n : ℕ, 5 ≤ n →
       JSNum.gtB (checkLinearity (rampSeries n)) (JSNum.num 0.9) = true ∧
       analyzeNaturalness (rampSeries n) = 0.4) ∧
    (∀ ps : List ℚ, JSNum.gtB (checkLinearity ps) (JSNum.num 0.9) = true →
       analyzeNaturalness ps ≤ 0.4) ∧
    (∀ ps : List ℚ, JSNum.ltB (uniqueRatio ps) (JSNum.num 0.7) = true →
       analyzeNaturalness ps ≤ 0.5) := by
  refine ⟨?_, ?_, ?_⟩
  · intro n hn
    have hlin := checkLinearity_rampSeries n (by omega)
    have hgt : JSNum.gtB (checkLinearity (rampSeries n)) (JSNum.num 0.9) = true := by
      rw [hlin]
      norm_num [JSNum.gtB, JSNum.ltB]
    refine ⟨hgt, ?_⟩
    have huniq := uniqueRatio_rampSeries n (by omega)
    simp only [analyzeNaturalness, huniq, hgt]
    norm_num [JSNum.ltB, max_def]
  · intro ps h
    simp only [analyzeNaturalness, h]
    split_ifs <;> norm_num [max_def]
  · intro ps h
    simp only [analyzeNaturalness, h]
    split_ifs <;> norm_num [max_def]

/-- C9 witness: the five-sample ramp scores exactly the penalized 0.4. -/
theorem naturalness_ramp_penalized_witness :
    analyzeNaturalness (rampSeries 5) = 0.4 :=
  (naturalness_ramp_penalized.1 5 (by norm_num)).2

end UtilsAnalyzer

end WeightCha
